import Mathlib

/-!
Verification of the `trust` repository: a Rust-inspired Result type for
TypeScript (`src/result.ts`).

The embedding models the two classes `Ok` and `Err` as the two constructors
of an inductive `Result`.  Methods that can `throw` (`unwrap`, `unwrapErr`)
return `Except String`, where the `String` is the message of the thrown
`Error` object; all other methods are total, mirroring the absence of any
`throw` in their bodies.  JavaScript template-literal string conversion of
the wrapped error (`${this.error}`) is modelled by a `ToString` instance.
Promises already settled are modelled by the `Settled` sum (fulfilled or
rejected), with `then'` and `catch'` mirroring `Promise.prototype.then`
(value-mapping form) and `Promise.prototype.catch` (handler returning a
plain value, hence a never-rejecting promise).
-/

namespace Trust

/-- A settled JavaScript promise: it either fulfilled with a value of type
`T` or rejected with an error of type `E`. -/
inductive Settled (T : Type) (E : Type) where
  | fulfilled (value : T)
  | rejected (error : E)
deriving DecidableEq

/-- `promise.then(fn)` with a handler returning a plain value: maps a
fulfillment, passes a rejection through. -/
def Settled.then' {T E U : Type} : Settled T E → (T → U) → Settled U E
  | .fulfilled v, fn => .fulfilled (fn v)
  | .rejected e, _ => .rejected e

/-- `promise.catch(fn)` with a handler returning a plain value: the
resulting promise never rejects (the handler itself cannot throw in this
pure model). -/
def Settled.catch' {T E F : Type} : Settled T E → (E → T) → Settled T F
  | .fulfilled v, _ => .fulfilled v
  | .rejected e, fn => .fulfilled (fn e)

/-- `export type Result<T, E> = Ok<T, E> | Err<T, E>`: the closed union of
the `Ok` and `Err` classes, discriminated by `_tag`. -/
inductive Result (T : Type) (E : Type) where
  | Ok (value : T)
  | Err (error : E)
deriving DecidableEq

/-- `export function ok<T, E>(value)` — builds the Ok variant. -/
def ok {T E : Type} (value : T) : Result T E := Result.Ok value

/-- `export function err<T, E>(error)` — builds the Err variant. -/
def err {T E : Type} (error : E) : Result T E := Result.Err error

namespace Result

/-- `isOk()`: `true` on `Ok`, `false` on `Err`. -/
def isOk {T E : Type} : Result T E → Bool
  | .Ok _ => true
  | .Err _ => false

/-- `isErr()`: `false` on `Ok`, `true` on `Err`. -/
def isErr {T E : Type} : Result T E → Bool
  | .Ok _ => false
  | .Err _ => true

/-- `unwrap()`: returns the value on `Ok`; on `Err` throws an `Error`
whose message is `"Called unwrap on an Err value: "` followed by the
string conversion of the wrapped error. -/
def unwrap {T E : Type} [ToString E] : Result T E → Except String T
  | .Ok v => .ok v
  | .Err e => .error ("Called unwrap on an Err value: " ++ toString e)

/-- `unwrapOr(defaultValue)`: the value on `Ok`, the default on `Err`. -/
def unwrapOr {T E : Type} : Result T E → T → T
  | .Ok v, _ => v
  | .Err _, d => d

/-- `unwrapErr()`: on `Ok` throws an `Error` whose message is the fixed
string `"Called unwrapErr on an Ok value"`; returns the error on `Err`. -/
def unwrapErr {T E : Type} : Result T E → Except String E
  | .Ok _ => .error "Called unwrapErr on an Ok value"
  | .Err e => .ok e

/-- `map(fn)`: `new Ok(fn(value))` on `Ok`, `new Err(error)` on `Err`. -/
def map {T E U : Type} : Result T E → (T → U) → Result U E
  | .Ok v, fn => .Ok (fn v)
  | .Err e, _ => .Err e

/-- `mapErr(fn)`: `new Ok(value)` on `Ok`, `new Err(fn(error))` on
`Err`. -/
def mapErr {T E F : Type} : Result T E → (E → F) → Result T F
  | .Ok v, _ => .Ok v
  | .Err e, fn => .Err (fn e)

/-- `andThen(fn)`: `fn(value)` on `Ok`, `new Err(error)` on `Err`. -/
def andThen {T E U : Type} : Result T E → (T → Result U E) → Result U E
  | .Ok v, fn => fn v
  | .Err e, _ => .Err e

/-- The `patterns` object taken by `match`: one handler per variant. -/
structure Patterns (T : Type) (E : Type) (U : Type) where
  ok : T → U
  err : E → U

/-- `match(patterns)`: `patterns.ok(value)` on `Ok`, `patterns.err(error)`
on `Err`.  (Named `match'` because `match` is a Lean keyword.) -/
def match' {T E U : Type} : Result T E → Patterns T E U → U
  | .Ok v, p => p.ok v
  | .Err e, p => p.err e

/-- `asPromise()`: `Promise.resolve(value)` on `Ok`,
`Promise.reject(error)` on `Err`. -/
def asPromise {T E : Type} : Result T E → Settled T E
  | .Ok v => .fulfilled v
  | .Err e => .rejected e

/-- `Result.fromPromise(promise)`:
`promise.then(value => new Ok(value)).catch(error => new Err(error))`. -/
def fromPromise {T E F : Type} (promise : Settled T E) :
    Settled (Result T E) F :=
  Settled.catch' (Settled.then' promise (fun value => Result.Ok value))
    (fun error => Result.Err error)

end Result

/-- Boolean check that `sub` occurs at the start of `l`. -/
def isPrefixChars : List Char → List Char → Bool
  | [], _ => true
  | _ :: _, [] => false
  | a :: as, b :: bs => a == b && isPrefixChars as bs

/-- Boolean check that `sub` occurs contiguously somewhere inside `l`. -/
def containsChars (sub : List Char) : List Char → Bool
  | [] => sub.isEmpty
  | a :: rest => isPrefixChars sub (a :: rest) || containsChars sub rest

/-- `s.includes(sub)` of JavaScript: `sub` occurs as a contiguous
substring of `s`. -/
def strIncludes (sub s : String) : Bool :=
  containsChars sub.toList s.toList

lemma isPrefixChars_append (l t : List Char) :
    isPrefixChars l (l ++ t) = true := by
  induction l with
  | nil => rfl
  | cons a as ih => simp [isPrefixChars, ih]

lemma containsChars_append_self (sub pre : List Char) :
    containsChars sub (pre ++ sub) = true := by
  induction pre with
  | nil =>
    cases sub with
    | nil => rfl
    | cons a as =>
      have h := isPrefixChars_append (a :: as) []
      simp only [List.append_nil] at h
      simp [containsChars, h]
  | cons a pre ih =>
    simp [containsChars, ih]

lemma strIncludes_append_self (pre sub : String) :
    strIncludes sub (pre ++ sub) = true := by
  have h : (pre ++ sub).toList = pre.toList ++ sub.toList := rfl
  simp only [strIncludes, h]
  exact containsChars_append_self sub.toList pre.toList

/-- Claim C1, counterexample: the claim as stated is false at `v = "boom"`.
`unwrapErr` on `ok "boom"` raises with the fixed description
`"Called unwrapErr on an Ok value"`, which does not contain `"boom"`. -/
theorem unwrapErr_message_omits_payload :
    Result.unwrapErr (ok "boom" : Result String String) =
      Except.error "Called unwrapErr on an Ok value" ∧
    strIncludes "boom" "Called unwrapErr on an Ok value" = false := by
  exact ⟨rfl, by decide⟩

/-- Claim C1, amended: `unwrap` on `err e` raises with a description that
contains the string conversion of `e`; `unwrapErr` on `ok v` raises, but
with the fixed description `"Called unwrapErr on an Ok value"`, which
names the mismatched variant and does not embed `v`. -/
theorem mismatched_extraction_messages {T E : Type} [ToString E]
    (e : E) (v : T) :
    Result.unwrap (err e : Result T E) =
      Except.error ("Called unwrap on an Err value: " ++ toString e) ∧
    strIncludes (toString e)
      ("Called unwrap on an Err value: " ++ toString e) = true ∧
    Result.unwrapErr (ok v : Result T E) =
      Except.error "Called unwrapErr on an Ok value" := by
  exact ⟨rfl, strIncludes_append_self _ _, rfl⟩

/-- Claim C2: `unwrap` raises exactly on the `Err` variant and `unwrapErr`
raises exactly on the `Ok` variant; these mismatched extractions are the
only failure paths (every other operation of the variant type is embedded
as a total function and cannot raise). -/
theorem raises_iff_mismatched {T E : Type} [ToString E] (r : Result T E) :
    ((∃ m, Result.unwrap r = Except.error m) ↔ r.isErr = true) ∧
    ((∃ m, Result.unwrapErr r = Except.error m) ↔ r.isOk = true) := by
  cases r <;>
    simp [Result.unwrap, Result.unwrapErr, Result.isOk, Result.isErr]

/-- Claim C3: `fromPromise` mirrors the settlement of its input as a
never-rejecting promise of a Result: a fulfillment with `v` becomes a
fulfillment with `ok v`, a rejection with `e` becomes a fulfillment (not a
rejection) with `err e`, and on every settled input the output is a
fulfillment. -/
theorem fromPromise_mirrors_settlement {T E F : Type} (v : T) (e : E)
    (p : Settled T E) :
    Result.fromPromise (Settled.fulfilled v) =
      (Settled.fulfilled (ok v) : Settled (Result T E) F) ∧
    Result.fromPromise (Settled.rejected e) =
      (Settled.fulfilled (err e) : Settled (Result T E) F) ∧
    ∃ r : Result T E,
      Result.fromPromise p = (Settled.fulfilled r : Settled (Result T E) F) := by
  refine ⟨rfl, rfl, ?_⟩
  cases p with
  | fulfilled v => exact ⟨ok v, rfl⟩
  | rejected e => exact ⟨err e, rfl⟩

/-- Claim C4: `asPromise` on `ok v` resolves with the payload, on `err e`
rejects with the wrapped error, and composing with `fromPromise` is an
inverse: for every Result `r`, `fromPromise (r.asPromise)` fulfills with a
Result equal to `r`. -/
theorem asPromise_fromPromise_inverse {T E F : Type} (r : Result T E)
    (v : T) (e : E) :
    Result.asPromise (ok v : Result T E) = Settled.fulfilled v ∧
    Result.asPromise (err e : Result T E) = Settled.rejected e ∧
    Result.fromPromise (Result.asPromise r) =
      (Settled.fulfilled r : Settled (Result T E) F) := by
  refine ⟨rfl, rfl, ?_⟩
  cases r <;> rfl

/-- Claim C5: `ok v |>.map fn` equals `ok (fn v)`, and `err e |>.map fn`
equals `err e` for every `fn` (the error passes through unchanged, so the
outcome never depends on `fn`). -/
theorem map_spec {T E U : Type} (v : T) (e : E) (fn : T → U) :
    Result.map (ok v : Result T E) fn = ok (fn v) ∧
    Result.map (err e : Result T E) fn = err e :=
  ⟨rfl, rfl⟩

/-- Claim C6: `err e |>.mapErr fn` equals `err (fn e)`, and
`ok v |>.mapErr fn` equals `ok v` for every `fn` (the payload passes
through unchanged, so the outcome never depends on `fn`). -/
theorem mapErr_spec {T E F : Type} (v : T) (e : E) (fn : E → F) :
    Result.mapErr (err e : Result T E) fn = err (fn e) ∧
    Result.mapErr (ok v : Result T E) fn = ok v :=
  ⟨rfl, rfl⟩

/-- Claim C7: `ok v |>.andThen fn` equals `fn v` (the Result returned by
`fn` is returned directly), and `err e |>.andThen fn` equals `err e` for
every `fn` (short-circuit: the outcome never depends on `fn`). -/
theorem andThen_spec {T E U : Type} (v : T) (e : E)
    (fn : T → Result U E) :
    Result.andThen (ok v : Result T E) fn = fn v ∧
    Result.andThen (err e : Result T E) fn = err e :=
  ⟨rfl, rfl⟩

/-- Claim C8: `match` invokes exactly one of the two handlers exactly
once, selected by the active variant, and returns that handler result:
instrumenting each handler to also tally its own invocation, the tallies
sum to one, the `ok` tally is one exactly on `Ok`, the `err` tally is one
exactly on `Err`, and the carried value is the result of `match` with the
original handlers. -/
theorem match_exactly_one {T E U : Type} (r : Result T E)
    (p : Result.Patterns T E U) :
    let c := Result.match' r
      ⟨fun v => ((1 : Nat), (0 : Nat), p.ok v),
       fun e => ((0 : Nat), (1 : Nat), p.err e)⟩
    c.1 + c.2.1 = 1 ∧ (c.1 = 1 ↔ r.isOk = true) ∧
      (c.2.1 = 1 ↔ r.isErr = true) ∧ c.2.2 = Result.match' r p := by
  cases r <;> simp [Result.match', Result.isOk, Result.isErr]

/-- Claim C9: construction and extraction agree: `ok v |>.unwrap` returns
`v` (no raise), `ok v |>.unwrapOr d` returns `v`, `err e |>.unwrapErr`
returns `e` (no raise), and `err e |>.unwrapOr d` returns `d`; `unwrapOr`
is total and never fails on either variant. -/
theorem construction_extraction_agree {T E : Type} [ToString E]
    (v : T) (e : E) (d : T) :
    Result.unwrap (ok v : Result T E) = Except.ok v ∧
    Result.unwrapOr (ok v : Result T E) d = v ∧
    Result.unwrapErr (err e : Result T E) = Except.ok e ∧
    Result.unwrapOr (err e : Result T E) d = d :=
  ⟨rfl, rfl, rfl, rfl⟩

/-- Claim C10: `andThen` is associative: for every Result `r` and
Result-returning functions `f` and `g`,
`r.andThen f |>.andThen g` equals `r.andThen (fun x => f x |>.andThen g)`. -/
theorem andThen_assoc {T E U V : Type} (r : Result T E)
    (f : T → Result U E) (g : U → Result V E) :
    Result.andThen (Result.andThen r f) g =
      Result.andThen r (fun x => Result.andThen (f x) g) := by
  cases r <;> rfl

end Trust
